import Mathlib

/-!
Shallow embedding of the biomass combustion calculation pipeline
(backend/app/utils/equations.py, backend/app/utils/constants.py,
backend/app/services/combustion.py, backend/app/services/sensitivity.py,
backend/app/models/biomass.py, backend/app/models/results.py).

Python floats are modelled as real numbers.  A Python expression that can
raise an exception is modelled in the Except monad over the error type
PyErr below: float division raises ZeroDivisionError exactly when the
divisor is zero, an attribute access on a pydantic model raises
AttributeError when the model does not declare the field, and evaluating
an unbound name raises NameError.
-/

/-- Python runtime errors that the embedded code can raise. -/
inductive PyErr where
  | zeroDivision : PyErr
  | nameError : String → PyErr
  | attributeError : String → PyErr
deriving DecidableEq

/-- Python float division: raises ZeroDivisionError when the divisor is zero. -/
noncomputable def pyDiv (x y : ℝ) : Except PyErr ℝ :=
  if y = 0 then Except.error PyErr.zeroDivision else Except.ok (x / y)

/-- Python math.log10, modelled on reals. -/
noncomputable def log10 (x : ℝ) : ℝ := Real.log x / Real.log 10

/-- equations.pressure_altitude: barometric pressure from altitude, kPa.
Faithful to the source, which uses the exponent -(g*M)/(R*L); note the
leading minus sign, present in the Python at equations.py line 22. -/
noncomputable def pressure_altitude (altitude_meters : ℝ) : ℝ :=
  if altitude_meters < 11000 then
    let exponent : ℝ := -(9.81 * 0.02896) / (8.314 * 0.0065)
    let temp_ratio : ℝ := 1 - 0.0065 * altitude_meters / 288.15
    101.325 * temp_ratio ^ exponent
  else
    101.325 * Real.exp (-altitude_meters / 8500)

/-- The troposphere formula exactly as the claim and spec state it,
with the positive exponent g*M/(R*L).  This definition follows the words
of the specification and exists only to be compared with the source
definition pressure_altitude above. -/
noncomputable def pressure_altitude_spec (altitude_meters : ℝ) : ℝ :=
  if altitude_meters < 11000 then
    101.325 * (1 - 0.0065 * altitude_meters / 288.15) ^ ((9.81 * 0.02896) / (8.314 * 0.0065) : ℝ)
  else
    101.325 * Real.exp (-altitude_meters / 8500)

/-- equations.saturated_vapor_pressure: Antoine equation, mmHg.
The division B/(C + T) raises ZeroDivisionError when C + T = 0. -/
noncomputable def saturated_vapor_pressure (temp_celsius : ℝ) : Except PyErr ℝ := do
  let q ← pyDiv 1730.63 (233.426 + temp_celsius)
  pure ((10 : ℝ) ^ (8.07131 - q))

/-- equations.absolute_humidity: kg water per kg dry air.  The final
division raises ZeroDivisionError when the atmospheric pressure equals
the partial vapor pressure. -/
noncomputable def absolute_humidity (relative_humidity dry_bulb_temp atmospheric_pressure : ℝ) :
    Except PyErr ℝ := do
  let P_sat ← saturated_vapor_pressure dry_bulb_temp
  let P_v := relative_humidity / 100 * P_sat
  let P_v_kPa := P_v * 0.133322
  pyDiv (0.622 * P_v_kPa) (atmospheric_pressure - P_v_kPa)

/-- equations.moist_air_enthalpy, kJ per kg dry air. -/
noncomputable def moist_air_enthalpy (temp_celsius w : ℝ) : ℝ :=
  1.006 * temp_celsius + w * (2501 + 1.86 * temp_celsius)

/-- Return record of equations.dulong_heating_value. -/
structure HeatingValues where
  PCS : ℝ
  PCI : ℝ
  water_from_combustion : ℝ

/-- The Dulong formulas applied after the renormalization step of
equations.dulong_heating_value (lines 91-103): PCS from the dry
fractions, PCI = PCS - HV_WATER * (9 H + moisture) / 100 with
HV_WATER = 2442. -/
noncomputable def dulong_formulas (carbon hydrogen oxygen sulfur moisture : ℝ) : HeatingValues :=
  let PCS := 338.2 * carbon + 1442.8 * (hydrogen - oxygen / 8) + 94.2 * sulfur
  let water_combustion := 9 * hydrogen + moisture
  { PCS := PCS
    PCI := PCS - 2442 * water_combustion / 100
    water_from_combustion := water_combustion }

/-- equations.dulong_heating_value.  When the five dry fractions do not
sum to 100 the source divides each by the total; that division raises
ZeroDivisionError when the total is 0 (and 0 is different from 100, so
the renormalization branch is taken). -/
noncomputable def dulong_heating_value (carbon hydrogen oxygen sulfur ash moisture : ℝ) :
    Except PyErr HeatingValues :=
  let total := carbon + hydrogen + oxygen + sulfur + ash
  if total = 100 then
    Except.ok (dulong_formulas carbon hydrogen oxygen sulfur moisture)
  else if total = 0 then
    Except.error PyErr.zeroDivision
  else
    Except.ok (dulong_formulas (carbon * 100 / total) (hydrogen * 100 / total)
      (oxygen * 100 / total) (sulfur * 100 / total) moisture)

/-- equations.theoretical_air_fuel_ratio: kg air per kg fuel. -/
noncomputable def theoretical_air_fuel_ratio (carbon hydrogen oxygen sulfur : ℝ) : ℝ :=
  let O2_required := (2.667 * carbon + 8 * hydrogen - 1.333 * oxygen + 2 * sulfur) / 100
  O2_required / 0.232

/-- Return record of equations.combustion_products. -/
structure Products where
  CO2 : ℝ
  H2O : ℝ
  SO2 : ℝ
  O2 : ℝ
  N2 : ℝ
  ash : ℝ
  air_real : ℝ
  total_gases : ℝ

/-- equations.combustion_products.  After computing the stoichiometric
masses, the source (line 142) passes the expression
oxygen * moisture_factor to theoretical_air_fuel_ratio, but oxygen is
neither a parameter of combustion_products nor a module global of
equations.py (checked against "from .constants import *"), so evaluating
that argument raises NameError for the unbound name oxygen on every
call.  The function therefore never returns. -/
noncomputable def combustion_products (carbon hydrogen sulfur moisture ash excess_air_percent : ℝ) :
    Except PyErr Products :=
  let moisture_factor := (100 - moisture) / 100
  let CO2 := 3.67 * carbon * moisture_factor / 100
  let H2O_from_combustion := 9 * hydrogen * moisture_factor / 100
  let H2O_from_fuel := moisture / 100
  let H2O_total := H2O_from_combustion + H2O_from_fuel
  let SO2 := 2 * sulfur * moisture_factor / 100
  Except.error (PyErr.nameError "oxygen")

/-- equations.gas_density: ideal gas mixture density from the five
product masses, kg per cubic metre.  All five dict keys are present in
GAS_PROPERTIES; the molar masses, in g/mol, are divided by 1000.  The
average molar mass is guarded to 0 when the mole total is not positive;
the final division raises ZeroDivisionError when R * T = 0. -/
noncomputable def gas_density (temperature_k pressure_pa co2 h2o so2 o2 n2 : ℝ) :
    Except PyErr ℝ :=
  let total_moles := co2 / (44.01 / 1000) + h2o / (18.015 / 1000) + so2 / (64.066 / 1000) +
    o2 / (31.999 / 1000) + n2 / (28.014 / 1000)
  let total_mass := co2 + h2o + so2 + o2 + n2
  let avg_molar_mass := if 0 < total_moles then total_mass / total_moles else 0
  pyDiv (pressure_pa * avg_molar_mass) (8.314 * temperature_k)

/-- equations.reynolds_number with the default dynamic viscosity 1.8e-5. -/
noncomputable def reynolds_number (velocity diameter density : ℝ) : ℝ :=
  density * velocity * diameter / 1.8e-5

/-- One update of the turbulent Colebrook fixed point iteration
(equations.py lines 213-215), exactly as coded in the source. -/
noncomputable def colebrook_step (Re diameter roughness f : ℝ) : ℝ :=
  let numerator := roughness / diameter
  let denominator := 3.7 * Re * Real.sqrt f
  1 / (-2 * log10 (numerator + denominator)) ^ 2

/-- The iteration loop of equations.colebrook_friction_factor: up to the
given number of passes; on each pass the new estimate is computed and,
when it is within 1e-6 of the current one, the loop breaks and the
current estimate is returned, otherwise the new estimate replaces it.
Real.sqrt and Real.log are total; on the inputs analysed below the
arguments stay strictly positive, matching the Python semantics. -/
noncomputable def colebrook_iter (Re diameter roughness : ℝ) : ℕ → ℝ → ℝ
  | 0, f => f
  | Nat.succ n, f =>
    let f_new := colebrook_step Re diameter roughness f
    if |f_new - f| < 1e-6 then f else colebrook_iter Re diameter roughness n f_new

/-- equations.colebrook_friction_factor: laminar branch 64/Re when
Re < 2300, otherwise at most 10 turbulent iterations seeded at 0.02. -/
noncomputable def colebrook_friction_factor (Re diameter roughness : ℝ) : ℝ :=
  if Re < 2300 then 64 / Re
  else colebrook_iter Re diameter roughness 10 0.02

/-- equations.pressure_drop_per_length: Darcy-Weisbach, Pa per metre. -/
noncomputable def pressure_drop_per_length (friction_factor density velocity diameter : ℝ) : ℝ :=
  friction_factor * (1 / diameter) * (density * velocity ^ 2 / 2)

/-- numpy.linspace(lo, hi, n) as an ordered list: n evenly spaced values
with both endpoints included (for n = 1 numpy returns the single value
lo; for n = 0 the empty array). -/
noncomputable def linspace (lo hi : ℝ) (n : ℕ) : List ℝ :=
  if n = 0 then []
  else if n = 1 then [lo]
  else (List.range n).map (fun (i : ℕ) => lo + (hi - lo) * (i : ℝ) / ((n : ℝ) - 1))

/-- models.biomass.BiomassInput: the numeric fields of the pydantic
input model (the string metadata fields project_code, document_code,
analyst, city and biomass_type carry no algorithmic content and are
omitted).  Note the lower heating value field is declared as
reported_pci (biomass.py line 21). -/
structure BiomassInput where
  altitude : ℝ
  relative_humidity : ℝ
  dry_bulb_temp : ℝ
  reported_pci : ℝ
  furnace_efficiency : ℝ
  excess_air : ℝ
  duct_diameter : ℝ
  carbon : ℝ
  hydrogen : ℝ
  oxygen : ℝ
  nitrogen : ℝ
  sulfur : ℝ
  ash : ℝ
  moisture : ℝ
  flow_rate : ℝ

/-- The Python attribute access self.input.reported_PCI performed at
combustion.py line 153.  BiomassInput declares only reported_pci
(lower case, biomass.py line 21), pydantic stores no attribute named
reported_PCI, so the access raises AttributeError on every call. -/
def input_reported_PCI (_ : BiomassInput) : Except PyErr ℝ :=
  Except.error (PyErr.attributeError "reported_PCI")

/-- The composition_wet dict built in _calculate_fuel_properties. -/
structure CompositionWet where
  C : ℝ
  H : ℝ
  O : ℝ
  N : ℝ
  S : ℝ
  ash : ℝ
  H2O : ℝ

/-- models.results.CombustionResults: the output record, field for field. -/
structure CombustionResults where
  pcs : ℝ
  pci_calculated : ℝ
  composition_wet_base : CompositionWet
  air_density : ℝ
  absolute_humidity : ℝ
  air_enthalpy : ℝ
  theoretical_air : ℝ
  real_air : ℝ
  excess_air_percentage : ℝ
  co2 : ℝ
  h2o : ℝ
  so2 : ℝ
  o2_excess : ℝ
  n2 : ℝ
  total_gas_mass : ℝ
  co2_fraction_vol : ℝ
  h2o_fraction_vol : ℝ
  so2_fraction_vol : ℝ
  o2_fraction_vol : ℝ
  n2_fraction_vol : ℝ
  total_energy_released : ℝ
  useful_energy : ℝ
  adiabatic_flame_temp : ℝ
  outlet_gas_temp : ℝ
  chimney_losses : ℝ
  real_efficiency : ℝ
  gas_density : ℝ
  volumetric_flow : ℝ
  duct_area : ℝ
  gas_velocity : ℝ
  reynolds_number : ℝ
  friction_factor : ℝ
  pressure_drop : ℝ
  thermal_resistance : ℝ
  heat_transfer_coefficient : ℝ
  heat_loss_per_meter : ℝ
  external_wall_temp : ℝ
  refractory_gradient : ℝ
  insulation_efficiency : ℝ
  co2_emission_factor : ℝ
  co2_concentration_dry : ℝ
  volumetric_heating_value : ℝ
  flow_rate_kg_s : ℝ
  mass_flow_gases : ℝ

/-- CombustionCalculator._calculate_adiabatic_temperature.  The residual
passed to scipy fsolve is linear in T: PCI * 1000 minus the sum of
Cp_i * (T - 298) * mass_i over the five product species, so fsolve
returns its unique root 298 + PCI * 1000 / denom when the coefficient is
nonzero; for the degenerate constant residual fsolve fails to make
progress and returns the seed 2000 without raising.  The result is then
floored at 298. -/
noncomputable def adiabatic_temperature (PCI : ℝ) (p : Products) : ℝ :=
  let denom := 0.844 * p.CO2 + 1.86 * p.H2O + 0.918 * p.O2 + 1.04 * p.N2 + 0.64 * p.SO2
  let T := if denom = 0 then 2000 else 298 + PCI * 1000 / denom
  max T 298

/-- The volumetric fraction computation of
CombustionCalculator._compile_results (combustion.py lines 311-324):
mole counts from mass over molar mass, normalized to the total when the
total is positive, all five fractions reported as 0 otherwise. -/
noncomputable def compile_volumetric_fractions (co2m h2om so2m o2m n2m : ℝ) :
    ℝ × ℝ × ℝ × ℝ × ℝ :=
  let total_vol := co2m / 44.01 + h2om / 18.015 + o2m / 31.999 + n2m / 28.014 + so2m / 64.066
  if 0 < total_vol then
    (co2m / 44.01 / total_vol * 100, h2om / 18.015 / total_vol * 100,
     so2m / 64.066 / total_vol * 100, o2m / 31.999 / total_vol * 100,
     n2m / 28.014 / total_vol * 100)
  else
    (0, 0, 0, 0, 0)

/-- The total mole count used by compile_volumetric_fractions. -/
noncomputable def product_total_moles (co2m h2om so2m o2m n2m : ℝ) : ℝ :=
  co2m / 44.01 + h2om / 18.015 + o2m / 31.999 + n2m / 28.014 + so2m / 64.066

/-- CombustionCalculator.calculate_all: the eight stage pipeline in
source order, followed by _compile_results.  Each division whose Python
divisor is a runtime value goes through pyDiv; the stage 3 call of
combustion_products raises NameError on every run (see
combustion_products above), and the stage 5 access of reported_PCI
raises AttributeError (see input_reported_PCI above), so the stages
after 3 are dead code kept for fidelity.  math.log and math.pi appear
only in that dead code and are modelled by the total Real.log and
Real.pi. -/
noncomputable def calculate_all (input : BiomassInput) : Except PyErr CombustionResults := do
  -- stage 1: _calculate_fuel_properties
  let moisture_factor := (100 - input.moisture) / 100
  let composition_wet : CompositionWet :=
    { C := input.carbon * moisture_factor
      H := input.hydrogen * moisture_factor
      O := input.oxygen * moisture_factor
      N := input.nitrogen * moisture_factor
      S := input.sulfur * moisture_factor
      ash := input.ash * moisture_factor
      H2O := input.moisture }
  let heating_values ← dulong_heating_value input.carbon input.hydrogen input.oxygen
    input.sulfur input.ash input.moisture
  let theoretical_air := theoretical_air_fuel_ratio input.carbon input.hydrogen
    input.oxygen input.sulfur
  let real_air := theoretical_air * (1 + input.excess_air / 100)
  -- stage 2: _calculate_air_properties
  let atmospheric_pressure := pressure_altitude input.altitude
  let temp_k := input.dry_bulb_temp + 273.15
  let pressure_pa := atmospheric_pressure * 1000
  let air_density ← pyDiv pressure_pa (287.05 * temp_k)
  let abs_humidity ← absolute_humidity input.relative_humidity input.dry_bulb_temp
    atmospheric_pressure
  let air_enthalpy := moist_air_enthalpy input.dry_bulb_temp abs_humidity
  -- stage 3: _calculate_stoichiometry (raises NameError, see above)
  let products ← combustion_products input.carbon input.hydrogen input.sulfur
    input.moisture input.ash input.excess_air
  -- stage 4: _calculate_mass_balance
  let flow_rate_kg_s := input.flow_rate * 1000 / 3600
  let total_gas_mass := products.total_gases
  let mass_flow_gases := flow_rate_kg_s * (1 + real_air)
  -- stage 5: _calculate_energy_balance (reported_PCI raises AttributeError)
  let reported_PCI ← input_reported_PCI input
  let total_energy := flow_rate_kg_s * reported_PCI
  let useful_energy := total_energy * (input.furnace_efficiency / 100)
  let adiabatic_temp := adiabatic_temperature heating_values.PCI products
  let temp_rise ← pyDiv useful_energy (mass_flow_gases * 1.1)
  let outlet_temp := input.dry_bulb_temp + temp_rise
  let real_efficiency := input.furnace_efficiency
  let chimney_losses := total_energy - useful_energy
  -- stage 6: _calculate_fluid_dynamics
  let temp_avg_k := (outlet_temp + input.dry_bulb_temp) / 2 + 273.15
  let gas_density_value ← gas_density temp_avg_k (atmospheric_pressure * 1000)
    products.CO2 products.H2O products.SO2 products.O2 products.N2
  let volumetric_flow ← pyDiv mass_flow_gases gas_density_value
  let diameter_m := input.duct_diameter * 0.0254
  let duct_area := Real.pi * diameter_m ^ 2 / 4
  let gas_velocity ← pyDiv volumetric_flow duct_area
  let reynolds := reynolds_number gas_velocity diameter_m gas_density_value
  let friction_factor := colebrook_friction_factor reynolds diameter_m 0.00015
  let pressure_drop := pressure_drop_per_length friction_factor gas_density_value
    gas_velocity diameter_m
  -- stage 7: _calculate_heat_transfer
  let R_convection_int ← pyDiv 1 (50 * Real.pi * diameter_m)
  let R_conduction_inner ← pyDiv (diameter_m / 2 + 0.15) (diameter_m / 2)
  let R_conduction := Real.log R_conduction_inner / (2 * Real.pi * 0.5)
  let R_convection_ext ← pyDiv 1 (10 * Real.pi * (diameter_m + 2 * 0.15))
  let thermal_resistance := R_convection_int + R_conduction + R_convection_ext
  let heat_transfer_coefficient ← pyDiv 1 thermal_resistance
  let delta_T := outlet_temp - input.dry_bulb_temp
  let heat_loss_per_meter := heat_transfer_coefficient * delta_T
  let external_wall_temp := input.dry_bulb_temp + heat_loss_per_meter * R_convection_ext
  let refractory_gradient := heat_loss_per_meter * R_conduction
  let heat_loss_no_insulation := 10 * Real.pi * diameter_m * delta_T
  let insulation_ratio ← pyDiv (heat_loss_no_insulation - heat_loss_per_meter)
    heat_loss_no_insulation
  let insulation_efficiency := insulation_ratio * 100
  -- stage 8: _calculate_emissions
  let co2_emission_factor := 44 / 12 * composition_wet.C / 100
  let dry_gases := products.CO2 + products.O2 + products.N2 + products.SO2
  let co2_concentration_dry := if 0 < dry_gases then products.CO2 / dry_gases * 100 else 0
  let volumetric_heating_value := heating_values.PCI * 1200
  -- _compile_results
  let fractions := compile_volumetric_fractions products.CO2 products.H2O products.SO2
    products.O2 products.N2
  pure
    { pcs := heating_values.PCS
      pci_calculated := heating_values.PCI
      composition_wet_base := composition_wet
      air_density := air_density
      absolute_humidity := abs_humidity
      air_enthalpy := air_enthalpy
      theoretical_air := theoretical_air
      real_air := real_air
      excess_air_percentage := input.excess_air
      co2 := products.CO2
      h2o := products.H2O
      so2 := products.SO2
      o2_excess := products.O2
      n2 := products.N2
      total_gas_mass := total_gas_mass
      co2_fraction_vol := fractions.1
      h2o_fraction_vol := fractions.2.1
      so2_fraction_vol := fractions.2.2.1
      o2_fraction_vol := fractions.2.2.2.1
      n2_fraction_vol := fractions.2.2.2.2
      total_energy_released := total_energy / 1000
      useful_energy := useful_energy / 1000
      adiabatic_flame_temp := adiabatic_temp
      outlet_gas_temp := outlet_temp
      chimney_losses := chimney_losses / 1000
      real_efficiency := real_efficiency
      gas_density := gas_density_value
      volumetric_flow := volumetric_flow
      duct_area := duct_area
      gas_velocity := gas_velocity
      reynolds_number := reynolds
      friction_factor := friction_factor
      pressure_drop := pressure_drop
      thermal_resistance := thermal_resistance
      heat_transfer_coefficient := heat_transfer_coefficient
      heat_loss_per_meter := heat_loss_per_meter
      external_wall_temp := external_wall_temp
      refractory_gradient := refractory_gradient
      insulation_efficiency := insulation_efficiency
      co2_emission_factor := co2_emission_factor
      co2_concentration_dry := co2_concentration_dry
      volumetric_heating_value := volumetric_heating_value
      flow_rate_kg_s := flow_rate_kg_s
      mass_flow_gases := mass_flow_gases }

/-- models.results.SensibilityResults. -/
structure SensibilityResults where
  parameter_name : String
  parameter_values : List ℝ
  temperatures : List ℝ
  velocities : List ℝ
  pressure_drops : List ℝ
  efficiencies : List ℝ

/-- The loop body of CombustionCalculator.sensitivity_analysis
(combustion.py lines 405-416): for each value in order, overwrite the
swept field, rerun the whole pipeline and collect outlet temperature in
Celsius, gas velocity, pressure drop and efficiency.  Python setattr and
getattr on a fixed field name are modelled by an overwrite function on
the input record; overwriting the same field of the same record each
pass is equivalent to overwriting the original record, and the final
restore of the original value has no observable effect. -/
noncomputable def sweep_loop (set_field : BiomassInput → ℝ → BiomassInput)
    (input : BiomassInput) : List ℝ → Except PyErr (List ℝ × List ℝ × List ℝ × List ℝ)
  | [] => Except.ok ([], [], [], [])
  | v :: vs => do
    let results ← calculate_all (set_field input v)
    let rest ← sweep_loop set_field input vs
    Except.ok ((results.outlet_gas_temp - 273.15) :: rest.1,
      results.gas_velocity :: rest.2.1,
      results.pressure_drop :: rest.2.2.1,
      results.real_efficiency :: rest.2.2.2)

/-- CombustionCalculator.sensitivity_analysis. -/
noncomputable def sensitivity_analysis (set_field : BiomassInput → ℝ → BiomassInput)
    (parameter_name : String) (input : BiomassInput) (parameter_values : List ℝ) :
    Except PyErr SensibilityResults := do
  let collected ← sweep_loop set_field input parameter_values
  Except.ok
    { parameter_name := parameter_name
      parameter_values := parameter_values
      temperatures := collected.1
      velocities := collected.2.1
      pressure_drops := collected.2.2.1
      efficiencies := collected.2.2.2 }

/-- The part of SensitivityAnalyzer.analyze_parameter the claims cover
(sensitivity.py lines 24-48): the linspace sample generation and the
sweep.  The derivative and ranking metrics computed afterwards at lines
36-39 are not modelled: every theorem below about this function shows the
sweep itself raises, so the metrics code is never reached. -/
noncomputable def analyze_parameter (set_field : BiomassInput → ℝ → BiomassInput)
    (get_field : BiomassInput → ℝ) (parameter_name : String) (input : BiomassInput)
    (range_percent : ℝ) (num_points : ℕ) : Except PyErr (List ℝ × SensibilityResults) := do
  let base_value := get_field input
  let min_val := base_value * (1 - range_percent / 100)
  let max_val := base_value * (1 + range_percent / 100)
  let values := linspace min_val max_val num_points
  let results ← sensitivity_analysis set_field parameter_name input values
  Except.ok (values, results)

/-- Python getattr on a CombustionResults record with a runtime field
name (sensitivity.py line 317): the declared fields of
models.results.CombustionResults return their value, every other name
raises AttributeError.  In particular none of the objective tags
efficiency, temperature and velocity is a declared field. -/
noncomputable def getattr_results (r : CombustionResults) (name : String) : Except PyErr ℝ :=
  if name = "pcs" then Except.ok r.pcs
  else if name = "pci_calculated" then Except.ok r.pci_calculated
  else if name = "air_density" then Except.ok r.air_density
  else if name = "absolute_humidity" then Except.ok r.absolute_humidity
  else if name = "air_enthalpy" then Except.ok r.air_enthalpy
  else if name = "theoretical_air" then Except.ok r.theoretical_air
  else if name = "real_air" then Except.ok r.real_air
  else if name = "excess_air_percentage" then Except.ok r.excess_air_percentage
  else if name = "co2" then Except.ok r.co2
  else if name = "h2o" then Except.ok r.h2o
  else if name = "so2" then Except.ok r.so2
  else if name = "o2_excess" then Except.ok r.o2_excess
  else if name = "n2" then Except.ok r.n2
  else if name = "total_gas_mass" then Except.ok r.total_gas_mass
  else if name = "co2_fraction_vol" then Except.ok r.co2_fraction_vol
  else if name = "h2o_fraction_vol" then Except.ok r.h2o_fraction_vol
  else if name = "so2_fraction_vol" then Except.ok r.so2_fraction_vol
  else if name = "o2_fraction_vol" then Except.ok r.o2_fraction_vol
  else if name = "n2_fraction_vol" then Except.ok r.n2_fraction_vol
  else if name = "total_energy_released" then Except.ok r.total_energy_released
  else if name = "useful_energy" then Except.ok r.useful_energy
  else if name = "adiabatic_flame_temp" then Except.ok r.adiabatic_flame_temp
  else if name = "outlet_gas_temp" then Except.ok r.outlet_gas_temp
  else if name = "chimney_losses" then Except.ok r.chimney_losses
  else if name = "real_efficiency" then Except.ok r.real_efficiency
  else if name = "gas_density" then Except.ok r.gas_density
  else if name = "volumetric_flow" then Except.ok r.volumetric_flow
  else if name = "duct_area" then Except.ok r.duct_area
  else if name = "gas_velocity" then Except.ok r.gas_velocity
  else if name = "reynolds_number" then Except.ok r.reynolds_number
  else if name = "friction_factor" then Except.ok r.friction_factor
  else if name = "pressure_drop" then Except.ok r.pressure_drop
  else if name = "thermal_resistance" then Except.ok r.thermal_resistance
  else if name = "heat_transfer_coefficient" then Except.ok r.heat_transfer_coefficient
  else if name = "heat_loss_per_meter" then Except.ok r.heat_loss_per_meter
  else if name = "external_wall_temp" then Except.ok r.external_wall_temp
  else if name = "refractory_gradient" then Except.ok r.refractory_gradient
  else if name = "insulation_efficiency" then Except.ok r.insulation_efficiency
  else if name = "co2_emission_factor" then Except.ok r.co2_emission_factor
  else if name = "co2_concentration_dry" then Except.ok r.co2_concentration_dry
  else if name = "volumetric_heating_value" then Except.ok r.volumetric_heating_value
  else if name = "flow_rate_kg_s" then Except.ok r.flow_rate_kg_s
  else if name = "mass_flow_gases" then Except.ok r.mass_flow_gases
  else Except.error (PyErr.attributeError name)

/-- The optional constraint dict of SensitivityAnalyzer.optimize_parameter. -/
structure OptimizeConstraints where
  min : Option ℝ
  max : Option ℝ
  search_range : Option ℝ
  max_velocity : Option ℝ
  min_efficiency : Option ℝ
  max_temp : Option ℝ

/-- The empty constraint dict. -/
def no_constraints : OptimizeConstraints :=
  { min := none, max := none, search_range := none, max_velocity := none,
    min_efficiency := none, max_temp := none }

/-- The objective score of a sample (sensitivity.py lines 280-287). -/
noncomputable def objective_score (results : CombustionResults) (objective : String) : ℝ :=
  if objective = "efficiency" then results.real_efficiency
  else if objective = "temperature" then -|results.outlet_gas_temp - 1273|
  else if objective = "velocity" then -|results.gas_velocity - 15|
  else results.real_efficiency

/-- The constraint check of a sample (sensitivity.py lines 290-299). -/
def sample_valid (results : CombustionResults) (constraints : OptimizeConstraints) : Prop :=
  (∀ mv, constraints.max_velocity = some mv → ¬results.gas_velocity > mv) ∧
  (∀ me, constraints.min_efficiency = some me → ¬results.real_efficiency < me) ∧
  (∀ mt, constraints.max_temp = some mt → ¬results.outlet_gas_temp > mt)

/-- The constraint check is settled classically; the branch taken inside
optimize_loop is what the Python comparison chain computes. -/
noncomputable instance sample_valid_decidable (results : CombustionResults)
    (constraints : OptimizeConstraints) : Decidable (sample_valid results constraints) :=
  Classical.propDecidable _

/-- The grid search loop of SensitivityAnalyzer.optimize_parameter
(sensitivity.py lines 275-303), over the running pair of best value and
best score, the score starting at float minus infinity, modelled as the
bottom of WithBot. -/
noncomputable def optimize_loop (pipeline : BiomassInput → Except PyErr CombustionResults)
    (set_field : BiomassInput → ℝ → BiomassInput) (input : BiomassInput)
    (objective : String) (constraints : OptimizeConstraints) :
    List ℝ → ℝ × WithBot ℝ → Except PyErr (ℝ × WithBot ℝ)
  | [], state => Except.ok state
  | v :: vs, state => do
    let results ← pipeline (set_field input v)
    let score := objective_score results objective
    let state2 :=
      if sample_valid results constraints ∧ state.2 < (score : WithBot ℝ) then (v, (score : WithBot ℝ))
      else state
    optimize_loop pipeline set_field input objective constraints vs state2

/-- The outcome dict of SensitivityAnalyzer.optimize_parameter.  The
improvement entry carries the minus infinity semantics of the Python
float: bottom minus a finite base score stays bottom. -/
structure OptimizeOutcome where
  parameter : String
  optimal_value : ℝ
  original_value : ℝ
  improvement : WithBot ℝ
  results : CombustionResults

/-- SensitivityAnalyzer.optimize_parameter (sensitivity.py lines
254-319), parameterized over the pipeline oracle so that its
behaviour can be analysed both with the real calculate_all and with a
hypothetical never failing pipeline.  After the grid loop the source
recomputes the full result at the chosen value, recomputes the base
case, and builds the improvement entry as
best_score - getattr(self.calculator.calculate_all(), objective)
(line 317), an attribute access with the raw objective tag. -/
noncomputable def optimize_parameter (pipeline : BiomassInput → Except PyErr CombustionResults)
    (set_field : BiomassInput → ℝ → BiomassInput) (get_field : BiomassInput → ℝ)
    (parameter_name : String) (input : BiomassInput) (objective : String)
    (constraints : OptimizeConstraints) : Except PyErr OptimizeOutcome := do
  let base_value := get_field input
  let search_range := constraints.search_range.getD 50
  let min_val := constraints.min.getD (base_value * (1 - search_range / 100))
  let max_val := constraints.max.getD (base_value * (1 + search_range / 100))
  let values := linspace min_val max_val 100
  let final_state ← optimize_loop pipeline set_field input objective constraints values
    (base_value, (⊥ : WithBot ℝ))
  let optimal_results ← pipeline (set_field input final_state.1)
  let base_results ← pipeline input
  let base_score ← getattr_results base_results objective
  Except.ok
    { parameter := parameter_name
      optimal_value := final_state.1
      original_value := base_value
      improvement := final_state.2.map (fun s => s - base_score)
      results := optimal_results }

/-- The reference bagasse input record: the defaults of
models.biomass.BiomassInput, which are also the composition named by the
claims (C = 50.29, H = 5.82, O = 42.94, N = 0.22, S = 0.08, ash = 0.66,
moisture = 35.09, flow 3000 t/h, excess air 30, altitude 2640). -/
noncomputable def reference_input : BiomassInput :=
  { altitude := 2640
    relative_humidity := 75
    dry_bulb_temp := 15
    reported_pci := 11367
    furnace_efficiency := 90
    excess_air := 30
    duct_diameter := 30
    carbon := 50.29
    hydrogen := 5.82
    oxygen := 42.94
    nitrogen := 0.22
    sulfur := 0.08
    ash := 0.66
    moisture := 35.09
    flow_rate := 3000 }

/-- Overwrite of the excess_air field, the setattr target of the claims
about the excess air sweep. -/
def set_excess_air (input : BiomassInput) (v : ℝ) : BiomassInput :=
  { input with excess_air := v }

/-- Read of the excess_air field. -/
def get_excess_air (input : BiomassInput) : ℝ := input.excess_air

/-! Auxiliary lemmas about the Except embedding. -/

/-- Bind on a successful step reduces to the continuation. -/
theorem ok_bind {α β : Type} (a : α) (f : α → Except PyErr β) :
    (Except.ok a >>= f) = f a := rfl

/-- Bind on a raised exception propagates the exception. -/
theorem error_bind {α β : Type} (e : PyErr) (f : α → Except PyErr β) :
    ((Except.error e : Except PyErr α) >>= f) = Except.error e := rfl

/-- Pure is ok. -/
theorem pure_eq_ok {α : Type} (a : α) : (pure a : Except PyErr α) = Except.ok a := rfl

/-- A bind whose continuation always raises, raises. -/
theorem bind_always_error {α β : Type} (x : Except PyErr α) (f : α → Except PyErr β)
    (hf : ∀ a, ∃ e, f a = Except.error e) : ∃ e, (x >>= f) = Except.error e := by
  cases x with
  | error e => exact ⟨e, rfl⟩
  | ok a => exact hf a

/-- Dulong succeeds whenever the dry fraction total is nonzero. -/
theorem dulong_heating_value_ok (carbon hydrogen oxygen sulfur ash moisture : ℝ)
    (ht : carbon + hydrogen + oxygen + sulfur + ash ≠ 0) :
    ∃ r, dulong_heating_value carbon hydrogen oxygen sulfur ash moisture = Except.ok r := by
  by_cases h100 : carbon + hydrogen + oxygen + sulfur + ash = 100
  · exact ⟨_, by simp only [dulong_heating_value]; rw [if_pos h100]⟩
  · exact ⟨_, by simp only [dulong_heating_value]; rw [if_neg h100, if_neg ht]⟩

/-- The source troposphere branch at the Bogota altitude: because the
exponent carries the extra minus sign, the computed pressure exceeds the
sea level constant 101.325 kPa. -/
theorem pressure_altitude_2640_gt : 101.325 < pressure_altitude 2640 := by
  have h0 : (0 : ℝ) < 1 - 0.0065 * 2640 / 288.15 := by norm_num
  have h1 : (1 - 0.0065 * 2640 / 288.15 : ℝ) < 1 := by norm_num
  have hE : (0 : ℝ) < 9.81 * 0.02896 / (8.314 * 0.0065) := by norm_num
  have hlt : (1 - 0.0065 * 2640 / 288.15 : ℝ) ^ (9.81 * 0.02896 / (8.314 * 0.0065) : ℝ) < 1 :=
    Real.rpow_lt_one h0.le h1 hE
  have hpos : (0 : ℝ) < (1 - 0.0065 * 2640 / 288.15 : ℝ) ^ (9.81 * 0.02896 / (8.314 * 0.0065) : ℝ) :=
    Real.rpow_pos_of_pos h0 _
  have hinv : 1 < ((1 - 0.0065 * 2640 / 288.15 : ℝ) ^ (9.81 * 0.02896 / (8.314 * 0.0065) : ℝ))⁻¹ :=
    one_lt_inv₀ hpos |>.mpr hlt
  have hneg : (1 - 0.0065 * 2640 / 288.15 : ℝ) ^ (-(9.81 * 0.02896) / (8.314 * 0.0065) : ℝ) =
      ((1 - 0.0065 * 2640 / 288.15 : ℝ) ^ (9.81 * 0.02896 / (8.314 * 0.0065) : ℝ))⁻¹ := by
    rw [neg_div, Real.rpow_neg h0.le]
  simp only [pressure_altitude]
  rw [if_pos (by norm_num : (2640 : ℝ) < 11000), hneg]
  nlinarith [hinv]

/-- The Antoine vapor pressure at 15 degrees Celsius is below 100 mmHg:
the exponent is below 2 and the base 10 power is strictly monotone. -/
theorem psat_15_lt : ((10 : ℝ) ^ (8.07131 - 1730.63 / (233.426 + 15) : ℝ)) < 100 := by
  have hexp : (8.07131 - 1730.63 / (233.426 + 15) : ℝ) < 2 := by norm_num
  have h10 : (1 : ℝ) < 10 := by norm_num
  have := Real.rpow_lt_rpow_of_exponent_lt h10 hexp
  have h100 : ((10 : ℝ) ^ (2 : ℝ)) = 100 := by
    rw [show (2 : ℝ) = ((2 : ℕ) : ℝ) by norm_num, Real.rpow_natCast]
    norm_num
  linarith [h100 ▸ this]

/-- The denominator of the absolute humidity division is nonzero under
the reference environmental conditions: the (buggy, increasing) source
pressure at 2640 m exceeds 101.325 kPa while the partial vapor pressure
stays below 10 kPa. -/
theorem ref_env_denom (input : BiomassInput) (ha : input.altitude = 2640)
    (htc : input.dry_bulb_temp = 15) (hrh : input.relative_humidity = 75) :
    pressure_altitude input.altitude - input.relative_humidity / 100 *
      ((10 : ℝ) ^ (8.07131 - 1730.63 / (233.426 + input.dry_bulb_temp) : ℝ)) * 0.133322 ≠ 0 := by
  rw [ha, htc, hrh]
  have h1 := pressure_altitude_2640_gt
  have h2 := psat_15_lt
  have h3 : (0 : ℝ) < (10 : ℝ) ^ (8.07131 - 1730.63 / (233.426 + 15) : ℝ) :=
    Real.rpow_pos_of_pos (by norm_num) _
  nlinarith [h1, h2, h3]

/-- Whenever the three divisions ahead of stage 3 have nonzero divisors,
calculate_all reaches _calculate_stoichiometry and raises the NameError
for the unbound name oxygen inside combustion_products. -/
theorem calculate_all_nameError (input : BiomassInput)
    (h1 : input.carbon + input.hydrogen + input.oxygen + input.sulfur + input.ash ≠ 0)
    (h2 : 287.05 * (input.dry_bulb_temp + 273.15) ≠ 0)
    (h3 : 233.426 + input.dry_bulb_temp ≠ 0)
    (h4 : pressure_altitude input.altitude - input.relative_humidity / 100 *
      ((10 : ℝ) ^ (8.07131 - 1730.63 / (233.426 + input.dry_bulb_temp) : ℝ)) * 0.133322 ≠ 0) :
    calculate_all input = Except.error (PyErr.nameError "oxygen") := by
  obtain ⟨r, hr⟩ := dulong_heating_value_ok input.carbon input.hydrogen input.oxygen
    input.sulfur input.ash input.moisture h1
  simp only [calculate_all, hr, ok_bind, pyDiv, absolute_humidity, saturated_vapor_pressure,
    pure_eq_ok, combustion_products, if_neg h2, if_neg h3, if_neg h4, error_bind]

/-- Lower bound for log10 at a positive real via an integer power
comparison: if 10 to the p is at most x to the q then p over q bounds
log10 x from below. -/
theorem log10_ge_of_pow_le (x : ℝ) (p q : ℕ) (hq : 0 < q) (hx : 0 < x)
    (h : (10 : ℝ) ^ p ≤ x ^ q) : (p : ℝ) / (q : ℝ) ≤ log10 x := by
  have hlog10 : 0 < Real.log 10 := Real.log_pos (by norm_num)
  have hq' : (0 : ℝ) < (q : ℝ) := by exact_mod_cast hq
  rw [log10, div_le_div_iff₀ hq' hlog10]
  have hmono : Real.log ((10 : ℝ) ^ p) ≤ Real.log (x ^ q) :=
    Real.log_le_log (by positivity) h
  rw [Real.log_pow, Real.log_pow] at hmono
  nlinarith [hmono]

/-- Upper bound for log10 at a positive real via an integer power
comparison: if x to the q is at most 10 to the p then p over q bounds
log10 x from above. -/
theorem log10_le_of_pow_le (x : ℝ) (p q : ℕ) (hq : 0 < q) (hx : 0 < x)
    (h : x ^ q ≤ (10 : ℝ) ^ p) : log10 x ≤ (p : ℝ) / (q : ℝ) := by
  have hlog10 : 0 < Real.log 10 := Real.log_pos (by norm_num)
  have hq' : (0 : ℝ) < (q : ℝ) := by exact_mod_cast hq
  rw [log10, div_le_div_iff₀ hlog10 hq']
  have hmono : Real.log (x ^ q) ≤ Real.log ((10 : ℝ) ^ p) :=
    Real.log_le_log (by positivity) h
  rw [Real.log_pow, Real.log_pow] at hmono
  nlinarith [hmono]

/-- The turbulent update at Re 2300, diameter 1 and roughness 0.00015
maps the interval from 0.02 to 0.027 into itself. -/
theorem colebrook_step_bounds (f : ℝ) (hf1 : 0.02 ≤ f) (hf2 : f ≤ 0.027) :
    0.02 ≤ colebrook_step 2300 1 0.00015 f ∧ colebrook_step 2300 1 0.00015 f ≤ 0.027 := by
  have hs1 : (0.1414 : ℝ) ≤ Real.sqrt f := by
    have : (0.1414 : ℝ) = Real.sqrt (0.1414 ^ 2) := by
      rw [Real.sqrt_sq (by norm_num)]
    rw [this]
    exact Real.sqrt_le_sqrt (by nlinarith)
  have hs2 : Real.sqrt f ≤ 0.1644 := by
    have : (0.1644 : ℝ) = Real.sqrt (0.1644 ^ 2) := by
      rw [Real.sqrt_sq (by norm_num)]
    rw [this]
    exact Real.sqrt_le_sqrt (by nlinarith)
  set s := Real.sqrt f with hs
  have harg1 : (1203 : ℝ) ≤ 0.00015 / 1 + 3.7 * 2300 * s := by nlinarith
  have harg2 : (0.00015 / 1 + 3.7 * 2300 * s : ℝ) ≤ 1399.2 := by nlinarith
  have hargpos : (0 : ℝ) < 0.00015 / 1 + 3.7 * 2300 * s := by linarith
  have hlo : (61 : ℝ) / 20 ≤ log10 (0.00015 / 1 + 3.7 * 2300 * s) := by
    have hp : (10 : ℝ) ^ (61 : ℕ) ≤ (0.00015 / 1 + 3.7 * 2300 * s) ^ (20 : ℕ) := by
      calc (10 : ℝ) ^ (61 : ℕ) ≤ (1203 : ℝ) ^ (20 : ℕ) := by norm_num
        _ ≤ (0.00015 / 1 + 3.7 * 2300 * s) ^ (20 : ℕ) :=
          pow_le_pow_left₀ (by norm_num) harg1 20
    have := log10_ge_of_pow_le (0.00015 / 1 + 3.7 * 2300 * s) 61 20 (by norm_num) hargpos hp
    convert this using 2
  have hhi : log10 (0.00015 / 1 + 3.7 * 2300 * s) ≤ (7 : ℝ) / 2 := by
    have hp : (0.00015 / 1 + 3.7 * 2300 * s) ^ (2 : ℕ) ≤ (10 : ℝ) ^ (7 : ℕ) := by
      calc (0.00015 / 1 + 3.7 * 2300 * s) ^ (2 : ℕ) ≤ (1399.2 : ℝ) ^ (2 : ℕ) :=
          pow_le_pow_left₀ (by linarith) harg2 2
        _ ≤ (10 : ℝ) ^ (7 : ℕ) := by norm_num
    have := log10_le_of_pow_le (0.00015 / 1 + 3.7 * 2300 * s) 7 2 (by norm_num) hargpos hp
    convert this using 2
  set L := log10 (0.00015 / 1 + 3.7 * 2300 * s) with hL
  have hstep : colebrook_step 2300 1 0.00015 f = 1 / ((-2 * L) ^ 2) := by
    simp only [colebrook_step, hL, hs]
  have hsq : ((-2 : ℝ) * L) ^ 2 = 4 * L ^ 2 := by ring
  have hLpos : (0 : ℝ) < L := by linarith
  have h4L_lo : (37.21 : ℝ) ≤ 4 * L ^ 2 := by nlinarith
  have h4L_hi : (4 : ℝ) * L ^ 2 ≤ 49 := by nlinarith
  constructor
  · rw [hstep, hsq]
    rw [le_div_iff₀ (by nlinarith)]
    nlinarith
  · rw [hstep, hsq]
    rw [div_le_iff₀ (by nlinarith)]
    nlinarith

/-- Every Colebrook iterate launched inside the interval from 0.02 to
0.027 stays there, whether the loop breaks early or runs all passes. -/
theorem colebrook_iter_bounds (n : ℕ) :
    ∀ f : ℝ, 0.02 ≤ f → f ≤ 0.027 →
      0.02 ≤ colebrook_iter 2300 1 0.00015 n f ∧ colebrook_iter 2300 1 0.00015 n f ≤ 0.027 := by
  induction n with
  | zero => intro f h1 h2; exact ⟨h1, h2⟩
  | succ n ih =>
    intro f h1 h2
    have hb := colebrook_step_bounds f h1 h2
    simp only [colebrook_iter]
    split_ifs with hbr
    · exact ⟨h1, h2⟩
    · exact ih _ hb.1 hb.2

/-- linspace is nonempty whenever the requested count is. -/
theorem linspace_ne_nil (lo hi : ℝ) (n : ℕ) (hn : n ≠ 0) : linspace lo hi n ≠ [] := by
  unfold linspace
  split_ifs with h1 h2
  · exact absurd h1 hn
  · simp
  · intro hc
    exact hn (List.range_eq_nil.mp (List.map_eq_nil_iff.mp hc))

/-- A sweep over a nonempty value list raises as soon as every
perturbed pipeline run raises. -/
theorem sweep_loop_error (set_field : BiomassInput → ℝ → BiomassInput) (input : BiomassInput)
    (values : List ℝ) (hne : values ≠ [])
    (hall : ∀ v, calculate_all (set_field input v) = Except.error (PyErr.nameError "oxygen")) :
    sweep_loop set_field input values = Except.error (PyErr.nameError "oxygen") := by
  cases values with
  | nil => exact absurd rfl hne
  | cons v vs => simp only [sweep_loop, hall v, error_bind]

/-- The optimizer grid loop raises as soon as every perturbed pipeline
run raises and the grid is nonempty. -/
theorem optimize_loop_error (pipeline : BiomassInput → Except PyErr CombustionResults)
    (set_field : BiomassInput → ℝ → BiomassInput) (input : BiomassInput) (objective : String)
    (constraints : OptimizeConstraints) (values : List ℝ) (state : ℝ × WithBot ℝ)
    (hne : values ≠ [])
    (hall : ∀ v, pipeline (set_field input v) = Except.error (PyErr.nameError "oxygen")) :
    optimize_loop pipeline set_field input objective constraints values state =
      Except.error (PyErr.nameError "oxygen") := by
  cases values with
  | nil => exact absurd rfl hne
  | cons v vs => simp only [optimize_loop, hall v, error_bind]

/-- With a pipeline oracle that always succeeds the optimizer grid loop
always completes with some final state. -/
theorem optimize_loop_ok (pipeline : BiomassInput → Except PyErr CombustionResults)
    (set_field : BiomassInput → ℝ → BiomassInput) (input : BiomassInput) (objective : String)
    (constraints : OptimizeConstraints)
    (htotal : ∀ b, ∃ r, pipeline b = Except.ok r) :
    ∀ (values : List ℝ) (state : ℝ × WithBot ℝ), ∃ final,
      optimize_loop pipeline set_field input objective constraints values state =
        Except.ok final := by
  intro values
  induction values with
  | nil => intro state; exact ⟨state, rfl⟩
  | cons v vs ih =>
    intro state
    obtain ⟨r, hr⟩ := htotal (set_field input v)
    simp only [optimize_loop, hr, ok_bind]
    exact ih _

/-- The gap between the two Colebrook branches at Re 2300: the laminar
value 64/2300 sits above 0.0278 while every turbulent iterate stays
below 0.027, so the difference exceeds the 1e-6 tolerance. -/
theorem colebrook_gap_at_2300 :
    1e-6 < |64 / 2300 - colebrook_iter 2300 1 0.00015 10 0.02| := by
  have hb := colebrook_iter_bounds 10 0.02 (by norm_num) (by norm_num)
  have hpos : (0 : ℝ) < 64 / 2300 - colebrook_iter 2300 1 0.00015 10 0.02 := by
    have := hb.2
    linarith
  rw [abs_of_pos hpos]
  have := hb.2
  linarith

/-- Every pipeline run of the excess air family around the reference
input raises the NameError for oxygen: the swept field does not touch
the three guarded divisors. -/
theorem calculate_all_ref_excess (v : ℝ) :
    calculate_all (set_excess_air reference_input v) = Except.error (PyErr.nameError "oxygen") := by
  apply calculate_all_nameError
  · norm_num [set_excess_air, reference_input]
  · norm_num [set_excess_air, reference_input]
  · norm_num [set_excess_air, reference_input]
  · exact ref_env_denom _ rfl rfl rfl

/-- C1.  The claim says calculate_all yields a CombustionResult for
every input and throws only on the literal division by zero edge cases.
In fact the pipeline never returns a result at all: stage 3 always
raises NameError for the unbound name oxygen inside combustion_products,
and any run that fails earlier fails on a division.  So for every input
record the pipeline terminates with a raised exception. -/
theorem C1_calculate_all_always_raises (input : BiomassInput) :
    ∃ e, calculate_all input = Except.error e := by
  simp only [calculate_all]
  apply bind_always_error
  intro heating_values
  apply bind_always_error
  intro air_density
  apply bind_always_error
  intro abs_humidity
  exact ⟨PyErr.nameError "oxygen", rfl⟩

/-- C2.  The claim says pressure_altitude follows the standard
troposphere model with the positive exponent g M / (R L).  The source
negates the exponent, so at the Bogota altitude 2640 m the claimed model
gives a value strictly below the sea level constant while the source
gives a value strictly above it: the two disagree. -/
theorem C2_pressure_exponent_flipped :
    pressure_altitude_spec 2640 < 101.325 ∧ 101.325 < pressure_altitude 2640 := by
  refine ⟨?_, pressure_altitude_2640_gt⟩
  have h0 : (0 : ℝ) < 1 - 0.0065 * 2640 / 288.15 := by norm_num
  have h1 : (1 - 0.0065 * 2640 / 288.15 : ℝ) < 1 := by norm_num
  have hE : (0 : ℝ) < 9.81 * 0.02896 / (8.314 * 0.0065) := by norm_num
  have hlt : (1 - 0.0065 * 2640 / 288.15 : ℝ) ^ (9.81 * 0.02896 / (8.314 * 0.0065) : ℝ) < 1 :=
    Real.rpow_lt_one h0.le h1 hE
  have hpos : (0 : ℝ) <
      (1 - 0.0065 * 2640 / 288.15 : ℝ) ^ (9.81 * 0.02896 / (8.314 * 0.0065) : ℝ) :=
    Real.rpow_pos_of_pos h0 _
  simp only [pressure_altitude_spec]
  rw [if_pos (by norm_num : (2640 : ℝ) < 11000)]
  nlinarith [hlt, hpos]

/-- C3.  For hydrogen and moisture nonnegative and a positive dry
fraction total, dulong_heating_value succeeds and returns PCS at least
PCI: the subtracted vaporization term 2442 (9 H + moisture) / 100 is
nonnegative on the renormalized hydrogen. -/
theorem C3_pcs_ge_pci (carbon hydrogen oxygen sulfur ash moisture : ℝ)
    (hh : 0 ≤ hydrogen) (hm : 0 ≤ moisture)
    (ht : 0 < carbon + hydrogen + oxygen + sulfur + ash) :
    ∃ hv, dulong_heating_value carbon hydrogen oxygen sulfur ash moisture = Except.ok hv ∧
      hv.PCI ≤ hv.PCS := by
  by_cases h100 : carbon + hydrogen + oxygen + sulfur + ash = 100
  · refine ⟨_, by simp only [dulong_heating_value]; rw [if_pos h100], ?_⟩
    simp only [dulong_formulas]
    nlinarith
  · refine ⟨_, by simp only [dulong_heating_value]; rw [if_neg h100, if_neg (ne_of_gt ht)], ?_⟩
    simp only [dulong_formulas]
    have hnorm : 0 ≤ hydrogen * 100 / (carbon + hydrogen + oxygen + sulfur + ash) := by
      positivity
    nlinarith

/-- Witness for C3 at the reference bagasse composition. -/
theorem C3_pcs_ge_pci_witness :
    ∃ hv, dulong_heating_value 50.29 5.82 42.94 0.08 0.66 35.09 = Except.ok hv ∧
      hv.PCI ≤ hv.PCS :=
  C3_pcs_ge_pci 50.29 5.82 42.94 0.08 0.66 35.09 (by norm_num) (by norm_num) (by norm_num)

/-- C4 counterexample.  The claim asserts the laminar and turbulent
branch values agree at Re = 2300 within the 1e-6 iteration tolerance;
at diameter 1 m and the default roughness 0.00015 they differ by more
than 1e-6 (indeed by more than 8e-4). -/
theorem C4_branch_agreement_fails :
    1e-6 < |64 / 2300 - colebrook_friction_factor 2300 1 0.00015| := by
  have heq : colebrook_friction_factor 2300 1 0.00015 = colebrook_iter 2300 1 0.00015 10 0.02 := by
    simp only [colebrook_friction_factor]
    rw [if_neg (by norm_num : ¬(2300 : ℝ) < 2300)]
  rw [heq]
  exact colebrook_gap_at_2300

/-- C4 amended.  colebrook_friction_factor takes the laminar branch
64/Re exactly when Re < 2300 and otherwise runs at most 10 fixed point
passes seeded at 0.02 with tolerance 1e-6, returning the standing
estimate without raising; however the two branch values do NOT agree at
Re = 2300 within the iteration tolerance: at diameter 1 m they differ by
more than 1e-6. -/
theorem C4_branches_and_gap :
    (∀ Re diameter roughness : ℝ, 0 < Re → 0 < diameter →
      (Re < 2300 → colebrook_friction_factor Re diameter roughness = 64 / Re) ∧
      (¬Re < 2300 → colebrook_friction_factor Re diameter roughness =
        colebrook_iter Re diameter roughness 10 0.02)) ∧
    1e-6 < |64 / 2300 - colebrook_friction_factor 2300 1 0.00015| := by
  constructor
  · intro Re diameter roughness _ _
    constructor
    · intro h
      simp only [colebrook_friction_factor]
      rw [if_pos h]
    · intro h
      simp only [colebrook_friction_factor]
      rw [if_neg h]
  · have heq : colebrook_friction_factor 2300 1 0.00015 =
        colebrook_iter 2300 1 0.00015 10 0.02 := by
      simp only [colebrook_friction_factor]
      rw [if_neg (by norm_num : ¬(2300 : ℝ) < 2300)]
    rw [heq]
    exact colebrook_gap_at_2300

/-- Witness for C4: both branch equations applied at concrete inputs. -/
theorem C4_branches_and_gap_witness :
    colebrook_friction_factor 1000 1 0.00015 = 64 / 1000 ∧
    colebrook_friction_factor 2300 1 0.00015 = colebrook_iter 2300 1 0.00015 10 0.02 :=
  ⟨(C4_branches_and_gap.1 1000 1 0.00015 (by norm_num) (by norm_num)).1 (by norm_num),
   (C4_branches_and_gap.1 2300 1 0.00015 (by norm_num) (by norm_num)).2 (by norm_num)⟩

/-- C5.  The five volumetric fractions computed by _compile_results: for
any five product masses, when the mole total is positive the fractions
sum to exactly 100 (so certainly within 100 plus or minus 1), and when
the mole total is zero all five are reported as exactly 0. -/
theorem C5_fraction_sum (co2m h2om so2m o2m n2m : ℝ) :
    (0 < product_total_moles co2m h2om so2m o2m n2m →
      |(compile_volumetric_fractions co2m h2om so2m o2m n2m).1 +
        (compile_volumetric_fractions co2m h2om so2m o2m n2m).2.1 +
        (compile_volumetric_fractions co2m h2om so2m o2m n2m).2.2.1 +
        (compile_volumetric_fractions co2m h2om so2m o2m n2m).2.2.2.1 +
        (compile_volumetric_fractions co2m h2om so2m o2m n2m).2.2.2.2 - 100| ≤ 1) ∧
    (product_total_moles co2m h2om so2m o2m n2m = 0 →
      compile_volumetric_fractions co2m h2om so2m o2m n2m = (0, 0, 0, 0, 0)) := by
  constructor
  · intro hpos
    have hpos' : (0 : ℝ) <
        co2m / 44.01 + h2om / 18.015 + o2m / 31.999 + n2m / 28.014 + so2m / 64.066 := hpos
    have hne : (co2m / 44.01 + h2om / 18.015 + o2m / 31.999 + n2m / 28.014 + so2m / 64.066 : ℝ)
        ≠ 0 := ne_of_gt hpos'
    simp only [compile_volumetric_fractions]
    rw [if_pos hpos']
    set a1 := co2m / 44.01 with ha1
    set a2 := h2om / 18.015 with ha2
    set a3 := o2m / 31.999 with ha3
    set a4 := n2m / 28.014 with ha4
    set a5 := so2m / 64.066 with ha5
    have hsum : a1 / (a1 + a2 + a3 + a4 + a5) * 100 + a2 / (a1 + a2 + a3 + a4 + a5) * 100 +
        a5 / (a1 + a2 + a3 + a4 + a5) * 100 + a3 / (a1 + a2 + a3 + a4 + a5) * 100 +
        a4 / (a1 + a2 + a3 + a4 + a5) * 100 = 100 := by
      field_simp
      ring
    rw [hsum]
    norm_num
  · intro hzero
    have hzero' : (co2m / 44.01 + h2om / 18.015 + o2m / 31.999 + n2m / 28.014 + so2m / 64.066 : ℝ)
        = 0 := hzero
    simp only [compile_volumetric_fractions]
    rw [if_neg (by rw [hzero']; exact lt_irrefl 0)]

/-- Witness for C5: a pure CO2 product stream of one kilogram. -/
theorem C5_fraction_sum_witness :
    0 < product_total_moles 44.01 0 0 0 0 ∧
    |(compile_volumetric_fractions 44.01 0 0 0 0).1 +
      (compile_volumetric_fractions 44.01 0 0 0 0).2.1 +
      (compile_volumetric_fractions 44.01 0 0 0 0).2.2.1 +
      (compile_volumetric_fractions 44.01 0 0 0 0).2.2.2.1 +
      (compile_volumetric_fractions 44.01 0 0 0 0).2.2.2.2 - 100| ≤ 1 :=
  ⟨by norm_num [product_total_moles],
   (C5_fraction_sum 44.01 0 0 0 0).1 (by norm_num [product_total_moles])⟩

/-- C6.  The claim says the excess air sweep 10..50 percent on the
reference bagasse input produces a strictly decreasing outlet
temperature sequence.  The sweep never produces a sequence: the first
perturbed pipeline run already raises the NameError for the unbound name
oxygen inside combustion_products. -/
theorem C6_excess_air_sweep_raises :
    sensitivity_analysis set_excess_air "excess_air" reference_input [10, 20, 30, 40, 50] =
      Except.error (PyErr.nameError "oxygen") := by
  simp only [sensitivity_analysis]
  rw [sweep_loop_error set_excess_air reference_input _ (List.cons_ne_nil _ _)
    (fun v => calculate_all_ref_excess v)]
  rfl

/-- C7.  The claim says the sensitivity sweep returns four channels of
length num_points aligned with the generated linspace samples.  The
samples are generated, but the sweep over them raises on its first
pipeline call, so no SweepResult is ever returned: at the reference
input with range 50 percent and 20 points the analyzer raises the
NameError for oxygen. -/
theorem C7_analyze_parameter_raises :
    analyze_parameter set_excess_air get_excess_air "excess_air" reference_input 50 20 =
      Except.error (PyErr.nameError "oxygen") := by
  simp only [analyze_parameter, sensitivity_analysis]
  rw [sweep_loop_error set_excess_air reference_input _
    (linspace_ne_nil _ _ 20 (by norm_num)) (fun v => calculate_all_ref_excess v)]
  rfl

/-- C8.  The claim says an optimization whose constraints no sample can
meet returns the base value with score minus infinity instead of
raising.  The grid search raises on its very first sample: with the
infeasible floor min_efficiency = 101 on the reference input the
optimizer propagates the NameError for oxygen instead of returning. -/
theorem C8_optimize_infeasible_raises :
    optimize_parameter calculate_all set_excess_air get_excess_air "excess_air" reference_input
      "efficiency" { no_constraints with min_efficiency := some 101 } =
      Except.error (PyErr.nameError "oxygen") := by
  simp only [optimize_parameter, no_constraints, Option.getD]
  rw [optimize_loop_error calculate_all set_excess_air reference_input "efficiency" _ _ _
    (linspace_ne_nil _ _ 100 (by norm_num)) (fun v => calculate_all_ref_excess v)]
  rfl

/-- C9.  The claim says the optimizer returns an improvement equal to
the best score minus the base score under the same objective.  Even with
a pipeline oracle that never fails, the improvement line
getattr(self.calculator.calculate_all(), objective) accesses an
attribute named by the raw objective tag; CombustionResults declares no
field named efficiency, temperature or velocity, so the optimizer
raises AttributeError for the objective name instead of returning an
outcome. -/
theorem C9_improvement_access_raises
    (pipeline : BiomassInput → Except PyErr CombustionResults)
    (set_field : BiomassInput → ℝ → BiomassInput) (get_field : BiomassInput → ℝ)
    (parameter_name : String) (input : BiomassInput) (constraints : OptimizeConstraints)
    (objective : String) (htotal : ∀ b, ∃ r, pipeline b = Except.ok r)
    (hobj : objective = "efficiency" ∨ objective = "temperature" ∨ objective = "velocity") :
    optimize_parameter pipeline set_field get_field parameter_name input objective constraints =
      Except.error (PyErr.attributeError objective) := by
  simp only [optimize_parameter]
  obtain ⟨final, hfinal⟩ := optimize_loop_ok pipeline set_field input objective constraints htotal
    (linspace
      (constraints.min.getD (get_field input * (1 - constraints.search_range.getD 50 / 100)))
      (constraints.max.getD (get_field input * (1 + constraints.search_range.getD 50 / 100))) 100)
    (get_field input, (⊥ : WithBot ℝ))
  rw [hfinal, ok_bind]
  obtain ⟨r1, hr1⟩ := htotal (set_field input final.1)
  rw [hr1, ok_bind]
  obtain ⟨r2, hr2⟩ := htotal input
  rw [hr2, ok_bind]
  rcases hobj with h | h | h <;> subst h <;> simp [getattr_results, error_bind]

/-- A pipeline oracle that always succeeds with an all zero record, used
only to witness C9. -/
noncomputable def constant_results : CombustionResults :=
  { pcs := 0, pci_calculated := 0
    composition_wet_base := { C := 0, H := 0, O := 0, N := 0, S := 0, ash := 0, H2O := 0 }
    air_density := 0, absolute_humidity := 0, air_enthalpy := 0
    theoretical_air := 0, real_air := 0, excess_air_percentage := 0
    co2 := 0, h2o := 0, so2 := 0, o2_excess := 0, n2 := 0, total_gas_mass := 0
    co2_fraction_vol := 0, h2o_fraction_vol := 0, so2_fraction_vol := 0
    o2_fraction_vol := 0, n2_fraction_vol := 0
    total_energy_released := 0, useful_energy := 0, adiabatic_flame_temp := 0
    outlet_gas_temp := 0, chimney_losses := 0, real_efficiency := 0
    gas_density := 0, volumetric_flow := 0, duct_area := 0, gas_velocity := 0
    reynolds_number := 0, friction_factor := 0, pressure_drop := 0
    thermal_resistance := 0, heat_transfer_coefficient := 0, heat_loss_per_meter := 0
    external_wall_temp := 0, refractory_gradient := 0, insulation_efficiency := 0
    co2_emission_factor := 0, co2_concentration_dry := 0, volumetric_heating_value := 0
    flow_rate_kg_s := 0, mass_flow_gases := 0 }

/-- Witness for C9: a concrete never failing oracle, the efficiency
objective, the reference input and empty constraints. -/
theorem C9_improvement_access_raises_witness :
    optimize_parameter (fun _ => Except.ok constant_results) set_excess_air get_excess_air
      "excess_air" reference_input "efficiency" no_constraints =
      Except.error (PyErr.attributeError "efficiency") :=
  C9_improvement_access_raises (fun _ => Except.ok constant_results) set_excess_air
    get_excess_air "excess_air" reference_input no_constraints "efficiency"
    (fun _ => ⟨constant_results, rfl⟩) (Or.inl rfl)

/-- C10.  Dulong renormalization behaviour: a zero dry fraction total
hits the unguarded division and raises ZeroDivisionError; any nonzero
total is silently renormalized before the formulas apply, so the result
is invariant under scaling the five dry fractions, and at the reference
bagasse composition, whose total 99.79 lies inside the 100 plus or minus
0.5 boundary tolerance, the returned PCS differs from the raw Dulong
formula on the unscaled fractions. -/
theorem C10_renormalization :
    (∀ carbon hydrogen oxygen sulfur ash moisture : ℝ,
      carbon + hydrogen + oxygen + sulfur + ash = 0 →
      dulong_heating_value carbon hydrogen oxygen sulfur ash moisture =
        Except.error PyErr.zeroDivision) ∧
    (∀ carbon hydrogen oxygen sulfur ash moisture k : ℝ,
      carbon + hydrogen + oxygen + sulfur + ash ≠ 0 → k ≠ 0 →
      dulong_heating_value (k * carbon) (k * hydrogen) (k * oxygen) (k * sulfur) (k * ash)
        moisture = dulong_heating_value carbon hydrogen oxygen sulfur ash moisture) ∧
    (∃ hv, dulong_heating_value 50.29 5.82 42.94 0.08 0.66 35.09 = Except.ok hv ∧
      hv.PCS ≠ 338.2 * 50.29 + 1442.8 * (5.82 - 42.94 / 8) + 94.2 * 0.08) := by
  refine ⟨?_, ?_, ?_⟩
  · intro carbon hydrogen oxygen sulfur ash moisture h0
    simp only [dulong_heating_value]
    rw [if_neg (by rw [h0]; norm_num), if_pos h0]
  · intro carbon hydrogen oxygen sulfur ash moisture k hT hk
    have hsum : k * carbon + k * hydrogen + k * oxygen + k * sulfur + k * ash =
        k * (carbon + hydrogen + oxygen + sulfur + ash) := by ring
    have hT' : k * (carbon + hydrogen + oxygen + sulfur + ash) ≠ 0 := mul_ne_zero hk hT
    by_cases h100 : carbon + hydrogen + oxygen + sulfur + ash = 100
    · by_cases hk100 : k * carbon + k * hydrogen + k * oxygen + k * sulfur + k * ash = 100
      · have hk1 : k = 1 := by
          rw [hsum, h100] at hk100
          linarith
        subst hk1
        simp only [one_mul]
      · simp only [dulong_heating_value]
        rw [if_neg hk100, if_neg (by rw [hsum]; exact hT'), if_pos h100]
        have e1 : k * carbon * 100 / (k * carbon + k * hydrogen + k * oxygen + k * sulfur +
            k * ash) = carbon := by
          rw [hsum, h100]
          field_simp
          ring
        have e2 : k * hydrogen * 100 / (k * carbon + k * hydrogen + k * oxygen + k * sulfur +
            k * ash) = hydrogen := by
          rw [hsum, h100]
          field_simp
          ring
        have e3 : k * oxygen * 100 / (k * carbon + k * hydrogen + k * oxygen + k * sulfur +
            k * ash) = oxygen := by
          rw [hsum, h100]
          field_simp
          ring
        have e4 : k * sulfur * 100 / (k * carbon + k * hydrogen + k * oxygen + k * sulfur +
            k * ash) = sulfur := by
          rw [hsum, h100]
          field_simp
          ring
        rw [e1, e2, e3, e4]
    · by_cases hk100 : k * carbon + k * hydrogen + k * oxygen + k * sulfur + k * ash = 100
      · simp only [dulong_heating_value]
        rw [if_pos hk100, if_neg h100, if_neg hT]
        have hkval : k * (carbon + hydrogen + oxygen + sulfur + ash) = 100 := by
          rw [← hsum]; exact hk100
        have e1 : carbon * 100 / (carbon + hydrogen + oxygen + sulfur + ash) = k * carbon := by
          field_simp
          linear_combination (-carbon) * hkval
        have e2 : hydrogen * 100 / (carbon + hydrogen + oxygen + sulfur + ash) =
            k * hydrogen := by
          field_simp
          linear_combination (-hydrogen) * hkval
        have e3 : oxygen * 100 / (carbon + hydrogen + oxygen + sulfur + ash) = k * oxygen := by
          field_simp
          linear_combination (-oxygen) * hkval
        have e4 : sulfur * 100 / (carbon + hydrogen + oxygen + sulfur + ash) = k * sulfur := by
          field_simp
          linear_combination (-sulfur) * hkval
        rw [e1, e2, e3, e4]
      · simp only [dulong_heating_value]
        rw [if_neg hk100, if_neg (by rw [hsum]; exact hT'), if_neg h100, if_neg hT]
        have e1 : k * carbon * 100 / (k * carbon + k * hydrogen + k * oxygen + k * sulfur +
            k * ash) = carbon * 100 / (carbon + hydrogen + oxygen + sulfur + ash) := by
          rw [hsum]
          field_simp
          ring
        have e2 : k * hydrogen * 100 / (k * carbon + k * hydrogen + k * oxygen + k * sulfur +
            k * ash) = hydrogen * 100 / (carbon + hydrogen + oxygen + sulfur + ash) := by
          rw [hsum]
          field_simp
          ring
        have e3 : k * oxygen * 100 / (k * carbon + k * hydrogen + k * oxygen + k * sulfur +
            k * ash) = oxygen * 100 / (carbon + hydrogen + oxygen + sulfur + ash) := by
          rw [hsum]
          field_simp
          ring
        have e4 : k * sulfur * 100 / (k * carbon + k * hydrogen + k * oxygen + k * sulfur +
            k * ash) = sulfur * 100 / (carbon + hydrogen + oxygen + sulfur + ash) := by
          rw [hsum]
          field_simp
          ring
        rw [e1, e2, e3, e4]
  · refine ⟨dulong_formulas (50.29 * 100 / (50.29 + 5.82 + 42.94 + 0.08 + 0.66))
      (5.82 * 100 / (50.29 + 5.82 + 42.94 + 0.08 + 0.66))
      (42.94 * 100 / (50.29 + 5.82 + 42.94 + 0.08 + 0.66))
      (0.08 * 100 / (50.29 + 5.82 + 42.94 + 0.08 + 0.66)) 35.09, ?_, ?_⟩
    · simp only [dulong_heating_value]
      rw [if_neg (by norm_num), if_neg (by norm_num)]
    · simp only [dulong_formulas]
      norm_num

/-- Witness for C10: the zero total raises, and doubling the reference
composition leaves the heating values unchanged. -/
theorem C10_renormalization_witness :
    dulong_heating_value 0 0 0 0 0 12 = Except.error PyErr.zeroDivision ∧
    dulong_heating_value (2 * 50.29) (2 * 5.82) (2 * 42.94) (2 * 0.08) (2 * 0.66) 35.09 =
      dulong_heating_value 50.29 5.82 42.94 0.08 0.66 35.09 :=
  ⟨C10_renormalization.1 0 0 0 0 0 12 (by norm_num),
   C10_renormalization.2.1 50.29 5.82 42.94 0.08 0.66 35.09 2 (by norm_num) (by norm_num)⟩
